import Mathlib

/-!
Shallow embedding of the pipeline supervisor found in src/main.py and
src/newMain/main2.py: the HealthCheckHandler GET route, the PORT parsing
done by run_health_check_server, the catch-and-retry logic of
run_category_pipeline / run_product_pipeline, the monitor loop inside
PipelineManager.start, PipelineManager.stop, the module level
signal_handler, and the top level try/except around manager.start().
-/

namespace CrawlMisslies

/-- An HTTP response as HealthCheckHandler.do_GET produces it: the status
code passed to send_response, the headers the handler itself sends with
send_header, and the bytes written to wfile (as a string, empty when the
handler writes nothing after end_headers). -/
structure HttpResponse where
  status : Nat
  headers : List (String × String)
  body : String
deriving DecidableEq, Repr

/-- The literal body bytes do_GET writes on the /health path
(src/newMain/main2.py line 36). -/
def healthBody : String := "\x7b\"status\":\"ok\",\"message\":\"Pipelines running\"\x7d"

/-- HealthCheckHandler.do_GET (src/newMain/main2.py lines 31-40): when
self.path is exactly the string /health it sends 200, one header
Content-type: application/json, and the static JSON body; on any other
path it sends 404 and ends the headers without writing a body. -/
def do_GET (path : String) : HttpResponse :=
  if path = "/health" then
    { status := 200
      headers := [("Content-type", "application/json")]
      body := healthBody }
  else
    { status := 404, headers := [], body := "" }

/-- ASCII lowercase of one character, used to compare HTTP header field
names, which are case insensitive. -/
def asciiLower (c : Char) : Char :=
  if c.toNat ≥ 65 && c.toNat ≤ 90 then Char.ofNat (c.toNat + 32) else c

/-- Case insensitive equality of two HTTP header field names. -/
def headerNameMatches (sent wanted : String) : Bool :=
  sent.data.map asciiLower == wanted.data.map asciiLower

/-- Characters left after stripping leading and trailing whitespace, the
way Python int() ignores surrounding whitespace in its string argument. -/
def trimChars (cs : List Char) : List Char :=
  ((cs.dropWhile Char.isWhitespace).reverse.dropWhile Char.isWhitespace).reverse

/-- Python int(s) on a decimal string: surrounding whitespace is ignored,
an optional single sign may precede the digits, and at least one ASCII
digit must follow; any other shape raises ValueError, modelled as none. -/
def pythonInt (s : String) : Option Int :=
  let cs := trimChars s.data
  let neg : Bool :=
    match cs with
    | c :: _ => c == '-'
    | [] => false
  let core : List Char :=
    match cs with
    | c :: rest => if c == '-' || c == '+' then rest else cs
    | [] => []
  if (!core.isEmpty) && core.all Char.isDigit then
    let n : Nat := core.foldl (fun acc c => 10 * acc + (c.toNat - 48)) 0
    if neg then some (-(n : Int)) else some ((n : Int))
  else
    none

/-- Possible outcomes of one attempt of
PipelineManager.run_health_check_server (src/newMain/main2.py lines
104-117) as far as the PORT value decides them: when
int(os.getenv("PORT", "8080")) succeeds the server binds on that port and
serves; when it raises, the except block catches the error, and the
attempt either retries after a 5 second sleep or terminates. -/
inductive HealthServerOutcome where
  | bound (port : Int)
  | retryAfterBackoff
  | terminated
deriving DecidableEq, Repr

/-- One attempt of run_health_check_server: envPORT is the value of the
PORT environment variable (none when unset, defaulted to the string 8080
by os.getenv), running the value of self.running read in the except
block, runningAfterSleep the value read again after the 5 second sleep.
A parse failure is caught by the except block of the same method: it is
retried while both reads of running are true and otherwise the attempt
terminates; in no case does it escape the thread or end the process. -/
def run_health_check_server_step (envPORT : Option String)
    (running runningAfterSleep : Bool) : HealthServerOutcome :=
  match pythonInt (envPORT.getD ("8080")) with
  | some p => HealthServerOutcome.bound p
  | none =>
    if running then
      if runningAfterSleep then HealthServerOutcome.retryAfterBackoff
      else HealthServerOutcome.terminated
    else HealthServerOutcome.terminated

/-- The order PipelineManager.start (src/newMain/main2.py lines 128-158)
creates its threads in: the category worker first, the product worker
second (after a 2 second stagger), and the health check server last. -/
def startThreadOrder : List String :=
  ["CategoryPipeline", "ProductExtractionPipeline", "HealthCheckServer"]

/-- How one invocation of the supervised run_continuous call ends: a
thrown exception, or a normal return (the contract says this should not
happen, but the embedding must cover it). -/
inductive Outcome where
  | normalReturn
  | failure
deriving DecidableEq, Repr

/-- What the runner does next after one attempt ends: fall off the end of
the function (the thread terminates) or invoke itself again. -/
inductive RunnerAction where
  | terminate
  | retry
deriving DecidableEq, Repr

/-- Observable effects of one pass through run_category_pipeline after
its run_continuous call ends: whether the error line was printed, whether
the restarting line was printed, whether the 10 second sleep ran, and
whether the method invoked itself again. -/
structure RunnerTrace where
  loggedFailure : Bool
  loggedRestart : Bool
  slept10 : Bool
  action : RunnerAction
deriving DecidableEq, Repr

/-- PipelineManager.run_category_pipeline (src/newMain/main2.py lines
78-89; run_product_pipeline lines 91-102 and both methods of src/main.py
are identical in shape): the try block calls run_continuous; on a thrown
exception the except block prints the error, reads self.running (the
argument running1), and when it is true prints the restart line, sleeps
10 seconds, reads self.running again (running2) and re-invokes itself
only when that second read is also true. A normal return of
run_continuous is not covered by the except block: the method simply
returns and its thread ends. -/
def runnerAfterAttempt (o : Outcome) (running1 running2 : Bool) : RunnerTrace :=
  match o with
  | Outcome.normalReturn =>
    { loggedFailure := false, loggedRestart := false, slept10 := false
      action := RunnerAction.terminate }
  | Outcome.failure =>
    if running1 then
      if running2 then
        { loggedFailure := true, loggedRestart := true, slept10 := true
          action := RunnerAction.retry }
      else
        { loggedFailure := true, loggedRestart := true, slept10 := true
          action := RunnerAction.terminate }
    else
      { loggedFailure := true, loggedRestart := false, slept10 := false
        action := RunnerAction.terminate }

/-- Nesting depth of run_category_pipeline frames on the call stack when
the scripted outcomes happen one per invocation and self.running reads
the constant value running: the retry in the except block is a direct
recursive self-invocation, so every retried failure adds one frame. -/
def runnerDepth (outcomes : List Outcome) (running : Bool) : Nat :=
  match outcomes with
  | [] => 1
  | o :: rest =>
    if (runnerAfterAttempt o running running).action = RunnerAction.retry then
      1 + runnerDepth rest running
    else
      1

/-- A worker thread handle as the manager stores it: an identifier for
the underlying thread object and what is_alive() currently returns. -/
structure WorkerThread where
  id : Nat
  alive : Bool
deriving DecidableEq, Repr

/-- The mutable attributes of PipelineManager that the monitor loop,
stop() and the signal handler touch: the running flag, the three thread
fields, the health server handle (some b, with b true while it serves,
none before it is created), and a counter supplying identifiers for
freshly created threads. -/
structure ManagerState where
  running : Bool
  category_thread : Option WorkerThread
  product_thread : Option WorkerThread
  health_check_thread : Option WorkerThread
  health_server : Option Bool
  nextId : Nat
deriving DecidableEq, Repr

/-- The per-thread check inside the monitor loop of PipelineManager.start
(src/newMain/main2.py lines 171-198): when the field holds a thread and
is_alive() returns false, a brand new thread is created, started and
stored in the field; when the thread is alive, or the field is None,
nothing happens and no thread is created. -/
def monitorCheckThread (t : Option WorkerThread) (freshId : Nat) :
    Option WorkerThread × Nat :=
  match t with
  | none => (none, freshId)
  | some th =>
    if th.alive then (some th, freshId)
    else (some { id := freshId, alive := true }, freshId + 1)

/-- One iteration of the while self.running monitor loop in
PipelineManager.start: when running is false the loop body does not
execute at all; otherwise the category, product and health check thread
fields are checked in that order and each dead thread is replaced by a
fresh one. -/
def monitorIteration (s : ManagerState) : ManagerState :=
  if s.running then
    let c := monitorCheckThread s.category_thread s.nextId
    let p := monitorCheckThread s.product_thread c.2
    let h := monitorCheckThread s.health_check_thread p.2
    { s with category_thread := c.1, product_thread := p.1
             health_check_thread := h.1, nextId := h.2 }
  else s

/-- PipelineManager.stop (src/newMain/main2.py lines 205-222): sets
self.running to False and, when a health server object exists, calls its
shutdown(); it creates no thread, joins no thread and leaves every thread
field untouched. -/
def stop (s : ManagerState) : ManagerState :=
  { s with running := false
           health_server := s.health_server.map (fun _ => false) }

/-- signal_handler from src/newMain/main2.py lines 225-230, registered
for both SIGINT and SIGTERM: for any signal number it calls
manager.stop() when the module level manager exists and then calls
sys.exit(0); the second component is the process exit status. -/
def signal_handler (sig : Nat) (mgr : Option ManagerState) :
    Option ManagerState × Nat :=
  match sig, mgr with
  | _, some s => (some (stop s), 0)
  | _, none => (none, 0)

/-- What an operator observes from the top level of main2.py
(src/newMain/main2.py lines 250-258): whether the Fatal error line was
printed, whether manager.stop() ran, and the process exit status. -/
structure ProcessResult where
  fatalLogged : Bool
  stopInvoked : Bool
  exitCode : Nat
deriving DecidableEq, Repr

/-- The top level of main2.py (identical in src/main.py): the statement
manager = PipelineManager() runs before the try block, so an exception
thrown while constructing the manager (a pipeline failing to come up in
the constructor) propagates uncaught and the interpreter ends the process
with status 1, printing a traceback but neither the Fatal error line nor
running stop(); an exception escaping manager.start() inside the try
block is caught, the Fatal error line is printed, manager.stop() runs and
sys.exit(1) is called. When neither throws, start() returns only through
its KeyboardInterrupt handler, which runs stop(), and the process then
ends with status 0. -/
def mainFlow (constructionThrows startThrows : Bool) : ProcessResult :=
  if constructionThrows then
    { fatalLogged := false, stopInvoked := false, exitCode := 1 }
  else if startThrows then
    { fatalLogged := true, stopInvoked := true, exitCode := 1 }
  else
    { fatalLogged := false, stopInvoked := true, exitCode := 0 }

/-- Alive flags of every execution context ever created for one worker
name, most recent first: the head is the thread currently stored in the
manager field, the tail holds the threads it replaced. -/
def liveCount (slot : List Bool) : Nat := slot.count true

/-- Invariant on the context history of one worker name: only the current
(head) context may be alive; every replaced context was observed dead
when it was replaced and a dead thread never revives. -/
def slotOnlyHeadAlive (slot : List Bool) : Bool :=
  slot.tail.all (fun b => !b)

/-- Effect of one monitor check on the context history of one worker
name: a new live context is created exactly when the current context is
observed not alive (the new thread becomes the head); a live current
context — running, or sleeping in its 10 second backoff — is left
alone. -/
def monitorRespawnSlot (slot : List Bool) : List Bool :=
  match slot with
  | [] => []
  | cur :: rest => if cur then cur :: rest else true :: cur :: rest

theorem all_not_count_true_eq_zero (l : List Bool)
    (h : l.all (fun b => !b) = true) : l.count true = 0 := by
  induction l with
  | nil => rfl
  | cons a l ih =>
    simp only [List.all_cons, Bool.and_eq_true] at h
    cases a with
    | false => simpa [List.count_cons] using ih h.2
    | true => simp at h

theorem runnerDepth_replicate_failure (n : Nat) :
    runnerDepth (List.replicate n Outcome.failure) true = n + 1 := by
  induction n with
  | zero => rfl
  | succ k ih =>
    rw [List.replicate_succ]
    simp only [runnerDepth, runnerAfterAttempt, if_true]
    omega

/-- Claim C1: the monitor loop respawns a worker thread only when the
current thread for that name is observed not alive, so a live current
context - one running its contract or sleeping in its backoff - is left
untouched and never duplicated; under the invariant that only the current
context of a name can be alive, a respawn keeps the number of live
contexts for that name at most one. -/
theorem monitor_never_duplicates (slot : List Bool) (th : WorkerThread)
    (freshId : Nat) :
    (slotOnlyHeadAlive slot = true →
      slotOnlyHeadAlive (monitorRespawnSlot slot) = true ∧
      liveCount (monitorRespawnSlot slot) ≤ 1) ∧
    (th.alive = true → monitorCheckThread (some th) freshId = (some th, freshId)) := by
  constructor
  · intro h
    cases slot with
    | nil => exact ⟨rfl, by decide⟩
    | cons cur rest =>
      have hrest : rest.all (fun b => !b) = true := by
        simpa [slotOnlyHeadAlive] using h
      cases cur with
      | true =>
        refine ⟨?_, ?_⟩
        · simpa [monitorRespawnSlot, slotOnlyHeadAlive] using hrest
        · simp [monitorRespawnSlot, liveCount, List.count_cons,
            all_not_count_true_eq_zero rest hrest]
      | false =>
        refine ⟨?_, ?_⟩
        · simp [monitorRespawnSlot, slotOnlyHeadAlive, List.all_cons, hrest]
        · simp [monitorRespawnSlot, liveCount, List.count_cons,
            all_not_count_true_eq_zero rest hrest]
  · intro h
    simp [monitorCheckThread, h]

/-- Claim C2: after a failure thrown by run_continuous, the runner always
prints the failure line; it prints the restart line and sleeps the fixed
10 second delay exactly when the first read of running is true, it
re-invokes the worker exactly when the reads before and after the sleep
are both true, and a false read at either point makes it terminate
without retry. -/
theorem runner_retry_discipline (r1 r2 : Bool) :
    (runnerAfterAttempt Outcome.failure r1 r2).loggedFailure = true ∧
    (runnerAfterAttempt Outcome.failure r1 r2).loggedRestart = r1 ∧
    (runnerAfterAttempt Outcome.failure r1 r2).slept10 = r1 ∧
    ((runnerAfterAttempt Outcome.failure r1 r2).action = RunnerAction.retry ↔
      (r1 = true ∧ r2 = true)) ∧
    ((r1 = false ∨ r2 = false) →
      (runnerAfterAttempt Outcome.failure r1 r2).action = RunnerAction.terminate) := by
  cases r1 <;> cases r2 <;> decide

/-- Claim C3: after stop() the running flag is false; a monitor iteration
on the stopped state changes nothing (the while condition fails before
the body runs), and a worker failure whose first read of running sees the
stopped flag terminates the runner without sleeping and without retry, so
no new execution context is ever created once stop() has returned. -/
theorem stop_blocks_all_respawn (s : ManagerState) (r2 : Bool) :
    (stop s).running = false ∧
    monitorIteration (stop s) = stop s ∧
    (runnerAfterAttempt Outcome.failure (stop s).running r2).action =
      RunnerAction.terminate ∧
    (runnerAfterAttempt Outcome.failure (stop s).running r2).slept10 = false := by
  refine ⟨rfl, ?_, rfl, rfl⟩
  simp [monitorIteration, stop]

/-- Claim C4: a GET whose path is exactly /health receives status 200, a
content type header valued application/json (HTTP header field names are
case insensitive; the source spells the field name Content-type) and the
literal JSON body; a GET to any other path receives status 404 with an
empty body. -/
theorem health_route_responses (p : String) :
    (do_GET ("/health")).status = 200 ∧
    (do_GET ("/health")).body = healthBody ∧
    (do_GET ("/health")).headers =
      [("Content-type", "application/json")] ∧
    headerNameMatches ("Content-type") ("Content-Type") = true ∧
    (p ≠ "/health" → (do_GET p).status = 404 ∧ (do_GET p).body = "") := by
  refine ⟨rfl, rfl, rfl, by decide, ?_⟩
  intro h
  simp [do_GET, h]

/-- Claim C5 counterexample: with PORT holding the non numeric string abc
the int call fails, but the resulting exception is caught inside
run_health_check_server itself and, with running true, the attempt is
retried after the 5 second backoff - the error is recovered by retry, not
treated as fatal, and the health check thread that hits it is the last
thread started, after both workers. -/
theorem port_invalid_not_fatal_cex :
    pythonInt ("abc") = none ∧
    run_health_check_server_step (some ("abc")) true true =
      HealthServerOutcome.retryAfterBackoff ∧
    startThreadOrder =
      ["CategoryPipeline", "ProductExtractionPipeline", "HealthCheckServer"] := by
  refine ⟨by decide, by decide, rfl⟩

/-- Claim C5 amended: a non numeric PORT value makes the int call in
run_health_check_server raise inside the health check thread, which
start() launches only after both worker threads; the exception is caught
by that method and, while running reads true, the attempt is retried
after the 5 second backoff; the thread terminates only when running reads
false, and the process never exits over it. -/
theorem port_invalid_retried (v : String) (h : pythonInt v = none) :
    run_health_check_server_step (some v) true true =
      HealthServerOutcome.retryAfterBackoff ∧
    run_health_check_server_step (some v) true false =
      HealthServerOutcome.terminated ∧
    run_health_check_server_step (some v) false true =
      HealthServerOutcome.terminated := by
  have hg : (some v).getD ("8080") = v := rfl
  refine ⟨?_, ?_, ?_⟩ <;> simp [run_health_check_server_step, hg, h]

/-- Witness for the amended claim C5 at the concrete PORT value abc. -/
theorem port_invalid_retried_w :
    run_health_check_server_step (some ("abc")) true true =
      HealthServerOutcome.retryAfterBackoff :=
(port_invalid_retried ("abc") (by decide)).1

/-- Claim C6 counterexample: with the running flag true at both reads, a
normal return of run_continuous makes the runner end its thread with no
log, no sleep and no retry, while a failure under the same flags is
retried - so a normal return is not handled the same way as a failure. -/
theorem normal_return_not_retried_cex :
    runnerAfterAttempt Outcome.normalReturn true true =
      { loggedFailure := false, loggedRestart := false, slept10 := false
        action := RunnerAction.terminate } ∧
    runnerAfterAttempt Outcome.failure true true =
      { loggedFailure := true, loggedRestart := true, slept10 := true
        action := RunnerAction.retry } := by decide

/-- Claim C6 amended: when run_continuous returns normally the except
block is never entered; the runner neither reads running nor sleeps nor
retries, and its thread simply ends. The worker is recovered instead by
the monitor loop, whose per thread check replaces a thread observed not
alive with a freshly started one. -/
theorem normal_return_ends_thread (r1 r2 : Bool) (i freshId : Nat) :
    runnerAfterAttempt Outcome.normalReturn r1 r2 =
      { loggedFailure := false, loggedRestart := false, slept10 := false
        action := RunnerAction.terminate } ∧
    monitorCheckThread (some { id := i, alive := false }) freshId =
      (some { id := freshId, alive := true }, freshId + 1) :=
⟨rfl, rfl⟩

/-- Claim C7 counterexample: no constant bounds the nested call depth of
the runner - for every candidate bound some number of consecutive retried
failures exceeds it, because the retry in the except block is a direct
recursive self-invocation of run_category_pipeline. -/
theorem retry_depth_unbounded_cex :
    ¬ ∃ c : Nat, ∀ n : Nat,
      runnerDepth (List.replicate n Outcome.failure) true ≤ c := by
  rintro ⟨c, hc⟩
  have h := hc (c + 1)
  rw [runnerDepth_replicate_failure] at h
  omega

/-- Claim C7 amended: the retry is a recursive self-invocation, not an
iterative loop: after n consecutive failures all retried with the running
flag true, n + 1 frames of run_category_pipeline are nested on the call
stack, so the depth grows linearly with the number of restarts instead of
staying bounded by a constant. -/
theorem retry_depth_linear (n : Nat) :
    runnerDepth (List.replicate n Outcome.failure) true = n + 1 :=
runnerDepth_replicate_failure n

/-- Claim C8 counterexample: an exception thrown while constructing the
manager (for example a pipeline failing in the constructor) is raised
before the try block, so the process exits with status 1 but the fatal
error line is never printed and stop() is never invoked. -/
theorem construction_error_skips_stop_cex :
    (mainFlow true false).stopInvoked = false ∧
    (mainFlow true false).fatalLogged = false ∧
    (mainFlow true false).exitCode = 1 := by decide

/-- Claim C8 amended: an exception escaping manager.start() inside the
try block is logged as fatal, stop() is invoked and the process exits
with status 1; an exception during manager construction is raised before
the try block, so the process still exits with a non zero status but
without the fatal log and without invoking stop(). -/
theorem fatal_error_paths :
    mainFlow false true =
      { fatalLogged := true, stopInvoked := true, exitCode := 1 } ∧
    mainFlow true false =
      { fatalLogged := false, stopInvoked := false, exitCode := 1 } := by decide

/-- Claim C9: a termination signal (the handler is registered for both
SIGINT and SIGTERM and ignores which one fired) makes the handler call
stop() on the existing manager and exit the process with status 0; and
stop() on an already stopped manager is a safe no-op: it leaves the state
exactly as the first stop() left it, with the running flag false. -/
theorem signal_stop_idempotent (sig : Nat) (s : ManagerState) :
    signal_handler sig (some s) = (some (stop s), 0) ∧
    (stop s).running = false ∧
    stop (stop s) = stop s := by
  refine ⟨rfl, rfl, ?_⟩
  cases h : s.health_server <;> simp [stop, h]

/-- Claim C10: the 200 response is produced only when the request path is
exactly the string /health: the suffixed path /health/ and the query
carrying path /health?probe=1 both receive the 404 response with empty
body, and in general the status is 200 exactly when the path equals
/health. -/
theorem health_requires_exact_path (p : String) :
    (do_GET ("/health/")).status = 404 ∧
    (do_GET ("/health/")).body = "" ∧
    (do_GET ("/health?probe=1")).status = 404 ∧
    (do_GET ("/health?probe=1")).body = "" ∧
    ((do_GET p).status = 200 ↔ p = "/health") := by
  refine ⟨by decide, by decide, by decide, by decide, ?_⟩
  by_cases h : p = "/health"
  · subst h
    simp [do_GET]
  · simp [do_GET, h]

end CrawlMisslies
